import Mathlib

/-!
Verification development for the library-management business-logic layer
(`library_service.py`).  The data model and the operations are shallowly
embedded: the storage collaborator (the `database` module, which is not part
of the core sources) is modelled from the specification's narrow
record-access surface as a pure state `DB`, and every operation of the core
becomes a Lean function from the state (plus the current time and the
outcomes of the storage writes) to a result and a new state.

Timestamps are modelled as a calendar-day index plus a time-of-day, which is
exactly the information the code uses: date subtraction in Python yields the
whole-day difference of the day indices, and ISO-string ordering of
timestamps agrees with the lexicographic order on (day, time-of-day).
Currency is modelled in integer cents; every fee the policy can produce is a
whole multiple of 50 cents and at most 1500, so Python's binary floating
point and `round(_, 2)` are exact on all reachable values and the cents
model is faithful.
-/

/-- A timestamp: calendar-day index (days since an arbitrary epoch) plus
seconds within the day.  `datetime.date()` keeps only `day`. -/
structure DateTime where
  day : Int
  tod : Nat
deriving DecidableEq, Repr

/-- Strict chronological order on timestamps (lexicographic on day, then
time of day); this is the order `ORDER BY` on ISO-formatted strings gives. -/
def dtLt (a b : DateTime) : Bool :=
  decide (a.day < b.day) || (decide (a.day = b.day) && decide (a.tod < b.tod))

/-- Adding a whole number of days to a timestamp (`timedelta(days=n)`). -/
def addDays (d : DateTime) (n : Int) : DateTime :=
  ⟨d.day + n, d.tod⟩

/-- A catalog book row as stored.  `available_copies` and `total_copies` are
kept as unconstrained integers so that the bounds invariant is proved, not
assumed. -/
structure Book where
  id : Nat
  title : String
  author : String
  isbn : String
  total_copies : Int
  available_copies : Int
deriving DecidableEq, Repr

/-- A borrow record as stored; `return_date = none` means the loan is open. -/
structure BorrowRecord where
  patron_id : String
  book_id : Nat
  borrow_date : DateTime
  due_date : DateTime
  return_date : Option DateTime
deriving DecidableEq, Repr

/-- The storage collaborator's durable state. -/
structure DB where
  books : List Book
  records : List BorrowRecord
deriving DecidableEq, Repr

/-- Outcome of a single storage write, as seen by the core: the write
commits and reports success, or commits nothing and reports failure, or
commits nothing and raises a fault. -/
inductive WOutcome where
  | ok
  | err
  | fault
deriving DecidableEq, Repr

/-- Modelled from the spec: storage surface "lookup book by id". -/
def get_book_by_id (db : DB) (book_id : Nat) : Option Book :=
  db.books.find? (fun b => b.id == book_id)

/-- Modelled from the spec: storage surface "lookup book by ISBN"
(exact-match lookup). -/
def get_book_by_isbn (db : DB) (isbn : String) : Option Book :=
  db.books.find? (fun b => b.isbn == isbn)

/-- Modelled from the spec: storage surface "list all books", in storage
iteration (insertion) order. -/
def get_all_books (db : DB) : List Book :=
  db.books

/-- Modelled from the spec: the storage-assigned integer identifier for a
newly inserted book (fresh with respect to the stored books). -/
def nextBookId (db : DB) : Nat :=
  db.books.foldl (fun m b => max m b.id) 0 + 1

/-- Modelled from the spec: storage surface "insert book"; on success the
new `Book` is appended with the given total and available counts. -/
def insert_book (db : DB) (title author isbn : String) (total avail : Int) : DB :=
  { db with books := db.books ++ [⟨nextBookId db, title, author, isbn, total, avail⟩] }

/-- Modelled from the spec: storage surface "count a patron's open borrow
records" (open = `return_date` null), computed fresh from the state. -/
def get_patron_borrow_count (db : DB) (patron_id : String) : Nat :=
  (db.records.filter (fun r => r.patron_id == patron_id && r.return_date == none)).length

/-- Modelled from the spec: storage surface "insert a borrow record"; on
success the new open record is appended. -/
def insert_borrow_record (db : DB) (patron_id : String) (book_id : Nat)
    (borrow_date due_date : DateTime) : DB :=
  { db with records := db.records ++ [⟨patron_id, book_id, borrow_date, due_date, none⟩] }

/-- Modelled from the spec: storage surface "adjust book availability by a
signed delta" for the book with the given id. -/
def update_book_availability (db : DB) (book_id : Nat) (delta : Int) : DB :=
  { db with books := db.books.map (fun b =>
      if b.id == book_id then { b with available_copies := b.available_copies + delta } else b) }

/-- Closes the first open record for the pair in storage order (helper for
`update_borrow_record_return_date`). -/
def closeFirstOpen (rs : List BorrowRecord) (patron_id : String) (book_id : Nat)
    (ret : DateTime) : List BorrowRecord :=
  match rs with
  | [] => []
  | r :: rest =>
    if r.patron_id == patron_id && r.book_id == book_id && r.return_date == none then
      { r with return_date := some ret } :: rest
    else
      r :: closeFirstOpen rest patron_id book_id ret

/-- Modelled from the spec: storage surface "close a borrow record (set
`return_date`) by patron+book"; exactly one open record is updated (the
choice among several opens is implementation-defined; the model closes the
first in storage order). -/
def update_borrow_record_return_date (db : DB) (patron_id : String) (book_id : Nat)
    (ret : DateTime) : DB :=
  { db with records := closeFirstOpen db.records patron_id book_id ret }

/-- Modelled from the spec: storage surface "fetch a patron's open borrow
records (with due dates)", joined with the book titles; rows are
(book_id, title, due_date). -/
def get_patron_borrowed_books (db : DB) (patron_id : String) :
    List (Nat × String × DateTime) :=
  (db.records.filter (fun r => r.patron_id == patron_id && r.return_date == none)).filterMap
    (fun r => (get_book_by_id db r.book_id).map (fun b => (r.book_id, b.title, r.due_date)))

/-- The open-loan lookup executed by `return_book_by_patron` (SELECT of a
record with this patron, this book and `return_date IS NULL`). -/
def findActiveRecord (db : DB) (patron_id : String) (book_id : Nat) : Option BorrowRecord :=
  db.records.find? (fun r =>
    r.patron_id == patron_id && r.book_id == book_id && r.return_date == none)

/-- Fold step selecting the record with the maximal `borrow_date` (the first
such record wins ties, matching `ORDER BY borrow_date DESC LIMIT 1`). -/
def pickLatest (acc : Option BorrowRecord) (r : BorrowRecord) : Option BorrowRecord :=
  match acc with
  | none => some r
  | some b => if dtLt b.borrow_date r.borrow_date then some r else some b

/-- The lookup executed by `calculate_late_fee_for_book`: among all records
for (patron, book), the one with the latest `borrow_date`. -/
def latestRecord (db : DB) (patron_id : String) (book_id : Nat) : Option BorrowRecord :=
  (db.records.filter (fun r => r.patron_id == patron_id && r.book_id == book_id)).foldl
    pickLatest none

/-- A fee assessment; `fee_cents` is the fee amount in cents (the Python
code's 2-decimal dollar float, exactly). -/
structure FeeAssessment where
  fee_cents : Nat
  days_overdue : Nat
deriving DecidableEq, Repr

/-- Embedding of `calculate_late_fee_for_book` (R5): find the most recently
borrowed record for the pair; with no record, a zero assessment.  Otherwise
days overdue is the whole-day difference from the due date to the stop
instant (the return date when set, else now), clamped at 0, and the fee is
50 cents per day for the first 7 days then 100 cents per day, capped at
1500 cents. -/
def calculate_late_fee_for_book (db : DB) (now : DateTime) (patron_id : String)
    (book_id : Nat) : FeeAssessment :=
  match latestRecord db patron_id book_id with
  | none => ⟨0, 0⟩
  | some r =>
    let due := r.due_date
    let stop := r.return_date.getD now
    let days_overdue := (max 0 (stop.day - due.day)).toNat
    let fee := 50 * min days_overdue 7 + 100 * (days_overdue - 7)
    let fee := min 1500 fee
    ⟨fee, days_overdue⟩

/-- Two-digit zero-padded decimal rendering of a value below 100. -/
def pad2 (n : Nat) : String :=
  if n < 10 then "0" ++ toString n else toString n

/-- Four-digit zero-padded year rendering. -/
def pad4 (y : Int) : String :=
  if y < 0 then toString y
  else if y < 10 then "000" ++ toString y
  else if y < 100 then "00" ++ toString y
  else if y < 1000 then "0" ++ toString y
  else toString y

/-- ISO `YYYY-MM-DD` rendering of a calendar-day index (days since
1970-01-01), via the standard civil-from-days conversion; this is what both
`strftime` on a timestamp and truncating its ISO string to 10 characters
produce. -/
def formatYmd (dayIdx : Int) : String :=
  let z := dayIdx + 719468
  let era := Int.fdiv z 146097
  let doe := (z - era * 146097).toNat
  let yoe := (doe - doe / 1460 + doe / 36524 - doe / 146096) / 365
  let doy := doe - (365 * yoe + yoe / 4 - yoe / 100)
  let mp := (5 * doy + 2) / 153
  let d := doy - (153 * mp + 2) / 5 + 1
  let m := if mp < 10 then mp + 3 else mp - 9
  let y := (yoe : Int) + era * 400 + (if m ≤ 2 then 1 else 0)
  pad4 y ++ "-" ++ pad2 m ++ "-" ++ pad2 d

/-- Dollar rendering of a fee in cents with two decimals (`$ {fee:.2f}`
without the dollar sign). -/
def moneyStr (c : Nat) : String :=
  toString (c / 100) ++ "." ++ pad2 (c % 100)

/-- The patron-id shape check used by borrow and return: exactly 6
characters, all digits (Python `patron_id.isdigit() and len == 6`). -/
def validPid (s : String) : Bool :=
  s.length == 6 && s.data.all Char.isDigit

/-- ASCII lowercasing of one character (Python `str.lower` on the
character range the catalog uses). -/
def charToLower (c : Char) : Char :=
  if 65 ≤ c.toNat && c.toNat ≤ 90 then Char.ofNat (c.toNat + 32) else c

/-- Python `s.lower()`. -/
def strLower (s : String) : String :=
  ⟨s.data.map charToLower⟩

/-- Python `s.strip()`: drop leading and trailing whitespace. -/
def strTrim (s : String) : String :=
  ⟨((s.data.dropWhile Char.isWhitespace).reverse.dropWhile Char.isWhitespace).reverse⟩

/-- List-of-characters prefix test (helper for substring containment). -/
def isPrefixChars : List Char → List Char → Bool
  | [], _ => true
  | _ :: _, [] => false
  | a :: as, b :: bs => a == b && isPrefixChars as bs

/-- List-of-characters substring containment (helper). -/
def hasSubChars (needle : List Char) : List Char → Bool
  | [] => isPrefixChars needle []
  | c :: rest => isPrefixChars needle (c :: rest) || hasSubChars needle rest

/-- String substring containment, Python's `needle in hay`. -/
def strContains (hay needle : String) : Bool :=
  hasSubChars needle.data hay.data

/-- The external-facing projection of a `Book` used by listing and search
(R2's row shape); `actions` is "Borrow" exactly when a copy is available. -/
structure CatalogRow where
  book_id : Nat
  title : String
  author : String
  isbn : String
  available_copies : Int
  total_copies : Int
  actions : String
deriving DecidableEq, Repr

/-- Projection of a stored book to its catalog row. -/
def catalogRowOf (b : Book) : CatalogRow :=
  ⟨b.id, b.title, b.author, b.isbn, b.available_copies, b.total_copies,
    if b.available_copies > 0 then "Borrow" else ""⟩

/-- Embedding of `get_catalog_view` (R2). -/
def get_catalog_view (db : DB) : List CatalogRow :=
  (get_all_books db).map catalogRowOf

/-- Embedding of `add_book_to_catalog` (R1).  `insertOk` is the reported
outcome of the storage insert. -/
def add_book_to_catalog (db : DB) (title author isbn : String) (total_copies : Int)
    (insertOk : Bool) : (Bool × String) × DB :=
  if title == "" || strTrim title == "" then ((false, "Title is required."), db)
  else if (strTrim title).length > 200 then ((false, "Title must be less than 200 characters."), db)
  else if author == "" || strTrim author == "" then ((false, "Author is required."), db)
  else if (strTrim author).length > 100 then ((false, "Author must be less than 100 characters."), db)
  else if isbn.length ≠ 13 then ((false, "ISBN must be exactly 13 digits."), db)
  else if total_copies ≤ 0 then ((false, "Total copies must be a positive integer."), db)
  else match get_book_by_isbn db isbn with
  | some _ => ((false, "A book with this ISBN already exists."), db)
  | none =>
    if insertOk then
      ((true, "Book \"" ++ strTrim title ++ "\" has been successfully added to the catalog."),
        insert_book db (strTrim title) (strTrim author) isbn total_copies total_copies)
    else ((false, "Database error occurred while adding the book."), db)

/-- Embedding of `borrow_book_by_patron` (R3).  `insertOk` and `updateOk`
are the reported outcomes of the two storage writes (record insert, then
availability decrement); a failed write commits nothing. -/
def borrow_book_by_patron (db : DB) (now : DateTime) (insertOk updateOk : Bool)
    (patron_id : String) (book_id : Nat) : (Bool × String) × DB :=
  if !(validPid patron_id) then ((false, "Invalid patron ID. Must be exactly 6 digits."), db)
  else match get_book_by_id db book_id with
  | none => ((false, "Book not found."), db)
  | some book =>
    if book.available_copies ≤ 0 then ((false, "This book is currently not available."), db)
    else if 5 ≤ get_patron_borrow_count db patron_id then
      ((false, "You have reached the maximum borrowing limit of 5 books."), db)
    else
      let due_date := addDays now 14
      if !insertOk then ((false, "Database error occurred while creating borrow record."), db)
      else
        let db1 := insert_borrow_record db patron_id book_id now due_date
        if !updateOk then
          ((false, "Database error occurred while updating book availability."), db1)
        else
          ((true, "Successfully borrowed \"" ++ book.title ++ "\". Due date: "
              ++ formatYmd due_date.day ++ "."),
            update_book_availability db1 book_id (-1))

/-- Embedding of `return_book_by_patron` (R4).  `setDateOk` and `updateOk`
are the reported outcomes of the two storage writes (closing the record,
then the availability increment). -/
def return_book_by_patron (db : DB) (now : DateTime) (setDateOk updateOk : Bool)
    (patron_id : String) (book_id : Nat) : (Bool × String) × DB :=
  if !(validPid patron_id) then ((false, "Invalid patron ID (must be 6 digits)."), db)
  else match get_book_by_id db book_id with
  | none => ((false, "Book not found."), db)
  | some book =>
    match findActiveRecord db patron_id book_id with
    | none => ((false, "No active borrow record for this patron and book."), db)
    | some _ =>
      if book.total_copies ≤ book.available_copies then
        ((false, "Available copies cannot exceed total copies."), db)
      else if !setDateOk then ((false, "Could not update return date."), db)
      else
        let db1 := update_borrow_record_return_date db patron_id book_id now
        if !updateOk then ((false, "Could not update book availability."), db1)
        else
          let db2 := update_book_availability db1 book_id 1
          let fee := (calculate_late_fee_for_book db2 now patron_id book_id).fee_cents
          ((true,
            if fee > 0 then "Book returned successfully. Late fee: $" ++ moneyStr fee
            else "Book returned successfully."),
            db2)

/-- Embedding of `search_books_in_catalog` (R6): the term is trimmed and the
type is trimmed and lowercased; isbn searches are exact matches of the
trimmed term, title and author searches are case-insensitive substring
matches, and any other type yields the empty row list. -/
def search_books_in_catalog (db : DB) (search_term search_type : String) : List CatalogRow :=
  let term := strTrim search_term
  let stype := strLower (strTrim search_type)
  if stype == "isbn" then
    ((get_all_books db).filter (fun b => b.isbn == term)).map catalogRowOf
  else if stype == "title" then
    ((get_all_books db).filter (fun b => strContains (strLower b.title) (strLower term))).map catalogRowOf
  else if stype == "author" then
    ((get_all_books db).filter (fun b => strContains (strLower b.author) (strLower term))).map catalogRowOf
  else []

/-- A current-loan row of the patron report. -/
structure LoanRow where
  book_id : Nat
  title : String
  due_date : String
deriving DecidableEq, Repr

/-- A borrowing-history row of the patron report. -/
structure HistoryRow where
  book_id : Nat
  title : String
  borrow_date : String
  return_date : Option String
deriving DecidableEq, Repr

/-- The patron status report (R7); monetary total in cents. -/
structure PatronReport where
  current_loans : List LoanRow
  total_late_fees_cents : Nat
  borrowed_count : Nat
  history : List HistoryRow
deriving DecidableEq, Repr

/-- Insertion step for sorting records by ascending borrow date (helper for
the history query's ORDER BY). -/
def insertByBorrowDate (r : BorrowRecord) : List BorrowRecord → List BorrowRecord
  | [] => [r]
  | x :: xs =>
    if dtLt x.borrow_date r.borrow_date then x :: insertByBorrowDate r xs
    else r :: x :: xs

/-- Sorting of records by ascending borrow date (the history query's
ORDER BY). -/
def sortByBorrowDate : List BorrowRecord → List BorrowRecord
  | [] => []
  | x :: xs => insertByBorrowDate x (sortByBorrowDate xs)

/-- Embedding of `get_patron_status_report` (R7): current loans from the
open records, total late fees summed over those same loans, and the full
history (records joined with book titles, ordered by borrow date). -/
def get_patron_status_report (db : DB) (now : DateTime) (patron_id : String) : PatronReport :=
  let current := get_patron_borrowed_books db patron_id
  let current_rows := current.map (fun e => LoanRow.mk e.1 e.2.1 (formatYmd e.2.2.day))
  let total_fee :=
    (current.map (fun e => (calculate_late_fee_for_book db now patron_id e.1).fee_cents)).sum
  let hist := (sortByBorrowDate (db.records.filter (fun r => r.patron_id == patron_id))).filterMap
    (fun r => (get_book_by_id db r.book_id).map (fun b =>
      HistoryRow.mk r.book_id b.title (formatYmd r.borrow_date.day)
        (r.return_date.map (fun d => formatYmd d.day))))
  ⟨current_rows, total_fee, current_rows.length, hist⟩

/-- Embedding of `borrow_book_by_patron` against a storage collaborator that
may raise: the function body contains no fault handler, so a raising write
(`WOutcome.fault`) propagates out as an `Except.error`. -/
def borrow_book_by_patron_exc (db : DB) (now : DateTime) (insertW updateW : WOutcome)
    (patron_id : String) (book_id : Nat) : Except String ((Bool × String) × DB) :=
  if !(validPid patron_id) then
    .ok ((false, "Invalid patron ID. Must be exactly 6 digits."), db)
  else match get_book_by_id db book_id with
  | none => .ok ((false, "Book not found."), db)
  | some book =>
    if book.available_copies ≤ 0 then
      .ok ((false, "This book is currently not available."), db)
    else if 5 ≤ get_patron_borrow_count db patron_id then
      .ok ((false, "You have reached the maximum borrowing limit of 5 books."), db)
    else
      let due_date := addDays now 14
      match insertW with
      | .fault => .error "unhandled storage exception"
      | .err => .ok ((false, "Database error occurred while creating borrow record."), db)
      | .ok =>
        let db1 := insert_borrow_record db patron_id book_id now due_date
        match updateW with
        | .fault => .error "unhandled storage exception"
        | .err => .ok ((false, "Database error occurred while updating book availability."), db1)
        | .ok =>
          .ok ((true, "Successfully borrowed \"" ++ book.title ++ "\". Due date: "
              ++ formatYmd due_date.day ++ "."),
            update_book_availability db1 book_id (-1))

/-- Embedding of `return_book_by_patron` against a storage collaborator that
may raise, analogous to `borrow_book_by_patron_exc`. -/
def return_book_by_patron_exc (db : DB) (now : DateTime) (setDateW updateW : WOutcome)
    (patron_id : String) (book_id : Nat) : Except String ((Bool × String) × DB) :=
  if !(validPid patron_id) then .ok ((false, "Invalid patron ID (must be 6 digits)."), db)
  else match get_book_by_id db book_id with
  | none => .ok ((false, "Book not found."), db)
  | some book =>
    match findActiveRecord db patron_id book_id with
    | none => .ok ((false, "No active borrow record for this patron and book."), db)
    | some _ =>
      if book.total_copies ≤ book.available_copies then
        .ok ((false, "Available copies cannot exceed total copies."), db)
      else
        match setDateW with
        | .fault => .error "unhandled storage exception"
        | .err => .ok ((false, "Could not update return date."), db)
        | .ok =>
          let db1 := update_borrow_record_return_date db patron_id book_id now
          match updateW with
          | .fault => .error "unhandled storage exception"
          | .err => .ok ((false, "Could not update book availability."), db1)
          | .ok =>
            let db2 := update_book_availability db1 book_id 1
            let fee := (calculate_late_fee_for_book db2 now patron_id book_id).fee_cents
            .ok ((true,
              if fee > 0 then "Book returned successfully. Late fee: $" ++ moneyStr fee
              else "Book returned successfully."),
              db2)

/-- Projection asking whether an exception-aware run produced a normal
(structured) result rather than an escaped fault. -/
def isOkResult {α β : Type} : Except α β → Bool
  | Except.ok _ => true
  | Except.error _ => false

/-- The book-copies invariant claimed by the spec: every stored book has
0 ≤ available_copies ≤ total_copies. -/
def InvDB (db : DB) : Prop :=
  ∀ b ∈ db.books, 0 ≤ b.available_copies ∧ b.available_copies ≤ b.total_copies

/-- Storage-assigned book identifiers are distinct (true in every state the
storage collaborator can reach, since it assigns fresh ids). -/
def UniqueIds (db : DB) : Prop :=
  (db.books.map Book.id).Nodup

/-- The fee formula exactly as the specification words it: fee =
min(15.00, 0.50·min(d, 7) + 1.00·max(d − 7, 0)), in cents (truncated
subtraction on naturals is the max with 0). -/
def feeSpecCents (d : Nat) : Nat :=
  min 1500 (50 * min d 7 + 100 * (d - 7))

lemma dtLt_iff (a b : DateTime) :
    dtLt a b = true ↔ (a.day < b.day ∨ (a.day = b.day ∧ a.tod < b.tod)) := by
  simp [dtLt]

lemma dtLt_false_iff (a b : DateTime) :
    dtLt a b = false ↔ ¬(a.day < b.day ∨ (a.day = b.day ∧ a.tod < b.tod)) := by
  rw [← dtLt_iff]
  simp

lemma dtLt_irrefl (a : DateTime) : dtLt a a = false := by
  rw [dtLt_false_iff]
  omega

lemma dtLt_trans {a b c : DateTime} (h1 : dtLt a b = true) (h2 : dtLt b c = true) :
    dtLt a c = true := by
  rw [dtLt_iff] at *
  omega

lemma dtLt_nlt_trans {a b c : DateTime} (h1 : dtLt a b = false) (h2 : dtLt b c = false) :
    dtLt a c = false := by
  rw [dtLt_false_iff] at *
  omega

lemma foldl_pickLatest_mem :
    ∀ (l : List BorrowRecord) (acc : Option BorrowRecord) (r : BorrowRecord),
      l.foldl pickLatest acc = some r → acc = some r ∨ r ∈ l := by
  intro l
  induction l with
  | nil => intro acc r h; exact Or.inl h
  | cons a t ih =>
    intro acc r h
    rw [List.foldl_cons] at h
    rcases ih (pickLatest acc a) r h with h1 | h2
    · cases acc with
      | none =>
        right
        simp only [pickLatest] at h1
        simp [Option.some_inj.mp h1]
      | some b =>
        simp only [pickLatest] at h1
        split at h1
        · right; simp [Option.some_inj.mp h1]
        · left; rw [Option.some_inj.mp h1]
    · right; exact List.mem_cons_of_mem a h2

lemma foldl_pickLatest_max :
    ∀ (l : List BorrowRecord) (acc : Option BorrowRecord) (r : BorrowRecord),
      l.foldl pickLatest acc = some r →
      (∀ b, acc = some b → dtLt r.borrow_date b.borrow_date = false) ∧
      (∀ x ∈ l, dtLt r.borrow_date x.borrow_date = false) := by
  intro l
  induction l with
  | nil =>
    intro acc r h
    simp only [List.foldl_nil] at h
    refine ⟨fun b hb => ?_, fun x hx => absurd hx (List.not_mem_nil x)⟩
    rw [h] at hb
    cases Option.some_inj.mp hb
    exact dtLt_irrefl _
  | cons a t ih =>
    intro acc r h
    rw [List.foldl_cons] at h
    obtain ⟨hacc, hl⟩ := ih (pickLatest acc a) r h
    cases acc with
    | none =>
      have hra : dtLt r.borrow_date a.borrow_date = false := hacc a rfl
      refine ⟨fun b hb => (nomatch hb), fun x hx => ?_⟩
      rcases List.mem_cons.mp hx with rfl | hxt
      · exact hra
      · exact hl x hxt
    | some b0 =>
      by_cases hcond : dtLt b0.borrow_date a.borrow_date = true
      · have hacc2 := hacc a (by simp [pickLatest, hcond])
        have hrb0 : dtLt r.borrow_date b0.borrow_date = false := by
          cases hrb : dtLt r.borrow_date b0.borrow_date with
          | false => rfl
          | true =>
            have := dtLt_trans hrb hcond
            rw [this] at hacc2
            cases hacc2
        refine ⟨fun b hb => ?_, fun x hx => ?_⟩
        · rw [Option.some_inj.mp hb] at hrb0; exact hrb0
        · rcases List.mem_cons.mp hx with rfl | hxt
          · exact hacc2
          · exact hl x hxt
      · rw [Bool.not_eq_true] at hcond
        have hacc2 := hacc b0 (by simp [pickLatest, hcond])
        refine ⟨fun b hb => ?_, fun x hx => ?_⟩
        · rw [Option.some_inj.mp hb] at hacc2; exact hacc2
        · rcases List.mem_cons.mp hx with rfl | hxt
          · exact dtLt_nlt_trans hacc2 hcond
          · exact hl x hxt

lemma mem_eq_of_find_id {l : List Book} {bid : Nat} {a b : Book}
    (hnd : (l.map Book.id).Nodup)
    (ha : l.find? (fun x => x.id == bid) = some a)
    (hb : b ∈ l) (hbid : b.id = bid) : b = a := by
  have haMem : a ∈ l := List.mem_of_find?_eq_some ha
  have haP := List.find?_some ha
  have haid : a.id = bid := by simpa using haP
  exact List.inj_on_of_nodup_map hnd hb haMem (by rw [hbid, haid])

lemma inv_adjust {books : List Book} {bid : Nat} {book : Book} {delta : Int}
    (hnd : (books.map Book.id).Nodup)
    (hInv : ∀ b ∈ books, 0 ≤ b.available_copies ∧ b.available_copies ≤ b.total_copies)
    (hfind : books.find? (fun b => b.id == bid) = some book)
    (hlow : 0 ≤ book.available_copies + delta)
    (hhigh : book.available_copies + delta ≤ book.total_copies) :
    ∀ b ∈ books.map (fun b =>
        if b.id == bid then { b with available_copies := b.available_copies + delta } else b),
      0 ≤ b.available_copies ∧ b.available_copies ≤ b.total_copies := by
  intro b hb
  rcases List.mem_map.mp hb with ⟨a, haMem, rfl⟩
  by_cases hid : a.id = bid
  · have ha : a = book := mem_eq_of_find_id hnd hfind haMem hid
    subst ha
    simp only [hid, beq_self_eq_true, if_true]
    exact ⟨hlow, hhigh⟩
  · simp only [beq_eq_false_iff_ne, ne_eq, hid, not_false_eq_true, beq_iff_eq, if_neg hid]
    exact hInv a haMem

lemma borrow_books_cases (db : DB) (now : DateTime) (o1 o2 : Bool) (pid : String) (bid : Nat) :
    (borrow_book_by_patron db now o1 o2 pid bid).2.books = db.books
    ∨ ∃ book, get_book_by_id db bid = some book ∧ 0 < book.available_copies ∧
        (borrow_book_by_patron db now o1 o2 pid bid).2.books
          = db.books.map (fun b =>
              if b.id == bid then { b with available_copies := b.available_copies + (-1) }
              else b) := by
  cases hv : validPid pid
  · left; simp [borrow_book_by_patron, hv]
  · cases hb : get_book_by_id db bid
    · left; simp [borrow_book_by_patron, hv, hb]
    case some book =>
      by_cases hav : book.available_copies ≤ 0
      · left; simp [borrow_book_by_patron, hv, hb, hav]
      · by_cases hc : 5 ≤ get_patron_borrow_count db pid
        · left; simp [borrow_book_by_patron, hv, hb, hav, hc]
        · cases o1
          · left; simp [borrow_book_by_patron, hv, hb, hav, hc]
          · cases o2
            · left; simp [borrow_book_by_patron, hv, hb, hav, hc, insert_borrow_record]
            · right
              refine ⟨book, rfl, by omega, ?_⟩
              simp [borrow_book_by_patron, hv, hb, hav, hc, update_book_availability,
                insert_borrow_record]

lemma return_books_cases (db : DB) (now : DateTime) (o1 o2 : Bool) (pid : String) (bid : Nat) :
    (return_book_by_patron db now o1 o2 pid bid).2.books = db.books
    ∨ ∃ book, get_book_by_id db bid = some book ∧ book.available_copies < book.total_copies ∧
        (return_book_by_patron db now o1 o2 pid bid).2.books
          = db.books.map (fun b =>
              if b.id == bid then { b with available_copies := b.available_copies + 1 }
              else b) := by
  cases hv : validPid pid
  · left; simp [return_book_by_patron, hv]
  · cases hb : get_book_by_id db bid
    · left; simp [return_book_by_patron, hv, hb]
    case some book =>
      cases hr : findActiveRecord db pid bid
      · left; simp [return_book_by_patron, hv, hb, hr]
      case some rec =>
        by_cases hg : book.total_copies ≤ book.available_copies
        · left; simp [return_book_by_patron, hv, hb, hr, hg]
        · cases o1
          · left; simp [return_book_by_patron, hv, hb, hr, hg]
          · cases o2
            · left; simp [return_book_by_patron, hv, hb, hr, hg,
                update_borrow_record_return_date]
            · right
              refine ⟨book, rfl, by omega, ?_⟩
              simp [return_book_by_patron, hv, hb, hr, hg, update_book_availability,
                update_borrow_record_return_date]

lemma add_books_cases (db : DB) (title author isbn : String) (n : Int) (o : Bool) :
    (add_book_to_catalog db title author isbn n o).2.books = db.books
    ∨ ∃ nb : Book, nb.available_copies = nb.total_copies ∧ 0 < nb.total_copies ∧
        (add_book_to_catalog db title author isbn n o).2.books = db.books ++ [nb] := by
  cases h1 : (title == "" || strTrim title == "")
  · by_cases h2 : (strTrim title).length > 200
    · left; simp [add_book_to_catalog, h1, h2]
    · cases h3 : (author == "" || strTrim author == "")
      · by_cases h4 : (strTrim author).length > 100
        · left; simp [add_book_to_catalog, h1, h2, h3, h4]
        · by_cases h5 : isbn.length ≠ 13
          · left; simp [add_book_to_catalog, h1, h2, h3, h4, h5]
          · by_cases h6 : n ≤ 0
            · left; simp [add_book_to_catalog, h1, h2, h3, h4, h5, h6]
            · cases h7 : get_book_by_isbn db isbn
              · cases o
                · left; simp [add_book_to_catalog, h1, h2, h3, h4, h5, h6, h7]
                · right
                  refine ⟨⟨nextBookId db, strTrim title, strTrim author, isbn, n, n⟩, rfl,
                    show (0 : Int) < n by omega, ?_⟩
                  simp [add_book_to_catalog, h1, h2, h3, h4, h5, h6, h7, insert_book]
              · left; simp [add_book_to_catalog, h1, h2, h3, h4, h5, h6, h7]
      · left; simp [add_book_to_catalog, h1, h2, h3]
  · left; simp [add_book_to_catalog, h1]

/-- C1: in every reachable state (book ids distinct, bounds invariant
holding), every book keeps 0 ≤ available_copies ≤ total_copies after any
mutating operation; borrow changes availability counters only by decrementing
the borrowed book's counter by exactly 1 and only when it was positive;
return only by incrementing the returned book's counter by exactly 1 and only
when it was below total_copies; add_book only appends a fresh book (with
available = total > 0) and leaves every existing counter unchanged.  The
remaining operations (catalog view, search, fee calculation, status report)
are pure reads of the state and change no counter by construction. -/
theorem copies_invariant_preserved (db : DB) (now : DateTime)
    (iOk uOk sOk vOk aOk : Bool) (pid pid2 title author isbn : String)
    (bid bid2 : Nat) (n : Int)
    (hU : UniqueIds db) (hInv : InvDB db) :
    InvDB (borrow_book_by_patron db now iOk uOk pid bid).2
    ∧ InvDB (return_book_by_patron db now sOk vOk pid2 bid2).2
    ∧ InvDB (add_book_to_catalog db title author isbn n aOk).2
    ∧ ((borrow_book_by_patron db now iOk uOk pid bid).2.books = db.books
       ∨ ∃ book, get_book_by_id db bid = some book ∧ 0 < book.available_copies ∧
          (borrow_book_by_patron db now iOk uOk pid bid).2.books
            = db.books.map (fun b =>
                if b.id == bid then { b with available_copies := b.available_copies + (-1) }
                else b))
    ∧ ((return_book_by_patron db now sOk vOk pid2 bid2).2.books = db.books
       ∨ ∃ book, get_book_by_id db bid2 = some book
          ∧ book.available_copies < book.total_copies ∧
          (return_book_by_patron db now sOk vOk pid2 bid2).2.books
            = db.books.map (fun b =>
                if b.id == bid2 then { b with available_copies := b.available_copies + 1 }
                else b))
    ∧ ((add_book_to_catalog db title author isbn n aOk).2.books = db.books
       ∨ ∃ nb : Book, nb.available_copies = nb.total_copies ∧ 0 < nb.total_copies ∧
          (add_book_to_catalog db title author isbn n aOk).2.books = db.books ++ [nb]) := by
  refine ⟨?_, ?_, ?_, borrow_books_cases db now iOk uOk pid bid,
    return_books_cases db now sOk vOk pid2 bid2, add_books_cases db title author isbn n aOk⟩
  · rcases borrow_books_cases db now iOk uOk pid bid with hB | ⟨book, hb, hpos, hB⟩
    · intro b hbmem; rw [hB] at hbmem; exact hInv b hbmem
    · intro b hbmem
      rw [hB] at hbmem
      have hmem := List.mem_of_find?_eq_some hb
      have hbk := hInv book hmem
      exact inv_adjust hU hInv hb (by omega) (by omega) b hbmem
  · rcases return_books_cases db now sOk vOk pid2 bid2 with hB | ⟨book, hb, hlt, hB⟩
    · intro b hbmem; rw [hB] at hbmem; exact hInv b hbmem
    · intro b hbmem
      rw [hB] at hbmem
      have hmem := List.mem_of_find?_eq_some hb
      have hbk := hInv book hmem
      exact inv_adjust hU hInv hb (by omega) (by omega) b hbmem
  · rcases add_books_cases db title author isbn n aOk with hB | ⟨nb, he, hpos, hB⟩
    · intro b hbmem; rw [hB] at hbmem; exact hInv b hbmem
    · intro b hbmem
      rw [hB] at hbmem
      rcases List.mem_append.mp hbmem with h | h
      · exact hInv b h
      · have hb : b = nb := by simpa using h
        subst hb
        exact ⟨by omega, by omega⟩

/-- Witness for C1 at a concrete reachable state. -/
theorem copies_invariant_preserved_witness :
    InvDB (borrow_book_by_patron ⟨[⟨1, "T", "A", "1234567890123", 3, 2⟩], []⟩
      ⟨20000, 0⟩ true true "123456" 1).2 :=
  (copies_invariant_preserved ⟨[⟨1, "T", "A", "1234567890123", 3, 2⟩], []⟩ ⟨20000, 0⟩
    true true true true true "123456" "123456" "T" "A" "1234567890123" 1 1 1
    (by unfold UniqueIds; decide) (by unfold InvDB; decide)).1

/-- C2: the assessment of the most recently borrowed record is the
spec formula applied to the whole-day difference between the stop instant
(return date if set, else now) and the due date, clamped at 0; with the
stated concrete values, the cap for 30 or more days, and monotonicity. -/
theorem late_fee_policy (db : DB) (now : DateTime) (pid : String) (bid : Nat)
    (r : BorrowRecord) (h : latestRecord db pid bid = some r) :
    calculate_late_fee_for_book db now pid bid
      = ⟨feeSpecCents ((max 0 ((r.return_date.getD now).day - r.due_date.day)).toNat),
          (max 0 ((r.return_date.getD now).day - r.due_date.day)).toNat⟩
    ∧ feeSpecCents 0 = 0 ∧ feeSpecCents 5 = 250 ∧ feeSpecCents 10 = 650
    ∧ feeSpecCents 45 = 1500
    ∧ (∀ d, 30 ≤ d → feeSpecCents d = 1500)
    ∧ (∀ d1 d2, d1 ≤ d2 → feeSpecCents d1 ≤ feeSpecCents d2) := by
  refine ⟨?_, by decide, by decide, by decide, by decide, ?_, ?_⟩
  · unfold calculate_late_fee_for_book
    rw [h]
    rfl
  · intro d hd
    unfold feeSpecCents
    omega
  · intro d1 d2 hle
    unfold feeSpecCents
    omega

/-- Witness for C2: a record due on day 14 and returned on day 24 is 10
days overdue and owes $6.50. -/
theorem late_fee_policy_witness :
    calculate_late_fee_for_book ⟨[], [⟨"123456", 1, ⟨0, 0⟩, ⟨14, 0⟩, some ⟨24, 5⟩⟩]⟩ ⟨99, 0⟩
      "123456" 1 = ⟨650, 10⟩ := by
  have h := (late_fee_policy ⟨[], [⟨"123456", 1, ⟨0, 0⟩, ⟨14, 0⟩, some ⟨24, 5⟩⟩]⟩ ⟨99, 0⟩
    "123456" 1 ⟨"123456", 1, ⟨0, 0⟩, ⟨14, 0⟩, some ⟨24, 5⟩⟩ (by decide)).1
  rw [h]
  decide

/-- C3: a patron holding at least 5 open loans is rejected with the
borrowing-limit message on any existing available book, and the state is
unchanged (no record created, no counter changed); the open-loan count is
the one computed from the current storage state. -/
theorem borrow_rejects_at_limit (db : DB) (now : DateTime) (o1 o2 : Bool)
    (pid : String) (bid : Nat) (book : Book)
    (hp : validPid pid = true)
    (hb : get_book_by_id db bid = some book)
    (ha : 0 < book.available_copies)
    (hc : 5 ≤ get_patron_borrow_count db pid) :
    borrow_book_by_patron db now o1 o2 pid bid
      = ((false, "You have reached the maximum borrowing limit of 5 books."), db) := by
  have hav : ¬(book.available_copies ≤ 0) := by omega
  simp [borrow_book_by_patron, hp, hb, hav, hc]

/-- Witness for C3: a patron with exactly 5 open loans is rejected. -/
theorem borrow_rejects_at_limit_witness :
    borrow_book_by_patron
      ⟨[⟨1, "T", "A", "1234567890123", 3, 2⟩],
        [⟨"123456", 2, ⟨0, 0⟩, ⟨14, 0⟩, none⟩, ⟨"123456", 3, ⟨0, 0⟩, ⟨14, 0⟩, none⟩,
         ⟨"123456", 4, ⟨0, 0⟩, ⟨14, 0⟩, none⟩, ⟨"123456", 5, ⟨0, 0⟩, ⟨14, 0⟩, none⟩,
         ⟨"123456", 6, ⟨0, 0⟩, ⟨14, 0⟩, none⟩]⟩ ⟨20000, 0⟩ true true "123456" 1
      = ((false, "You have reached the maximum borrowing limit of 5 books."),
          ⟨[⟨1, "T", "A", "1234567890123", 3, 2⟩],
            [⟨"123456", 2, ⟨0, 0⟩, ⟨14, 0⟩, none⟩, ⟨"123456", 3, ⟨0, 0⟩, ⟨14, 0⟩, none⟩,
             ⟨"123456", 4, ⟨0, 0⟩, ⟨14, 0⟩, none⟩, ⟨"123456", 5, ⟨0, 0⟩, ⟨14, 0⟩, none⟩,
             ⟨"123456", 6, ⟨0, 0⟩, ⟨14, 0⟩, none⟩]⟩) :=
  borrow_rejects_at_limit _ _ _ _ _ _ ⟨1, "T", "A", "1234567890123", 3, 2⟩
    (by decide) (by decide) (by decide) (by decide)

/-- C7: the report's borrowed_count equals the length of its current-loans
list, and its fee total is the sum of the per-loan assessments over the
current (open) loans only. -/
theorem report_counts_and_fees (db : DB) (now : DateTime) (pid : String) :
    (get_patron_status_report db now pid).borrowed_count
      = (get_patron_status_report db now pid).current_loans.length
    ∧ (get_patron_status_report db now pid).total_late_fees_cents
      = ((get_patron_borrowed_books db pid).map
          (fun e => (calculate_late_fee_for_book db now pid e.1).fee_cents)).sum :=
  ⟨by simp [get_patron_status_report], rfl⟩

lemma closeFirstOpen_open_count (pid : String) (bid : Nat) (ret : DateTime) :
    ∀ (rs : List BorrowRecord) (r : BorrowRecord),
      rs.find? (fun x => x.patron_id == pid && x.book_id == bid && x.return_date == none)
        = some r →
      ((closeFirstOpen rs pid bid ret).filter
          (fun x => x.patron_id == pid && x.return_date == none)).length + 1
        = (rs.filter (fun x => x.patron_id == pid && x.return_date == none)).length := by
  intro rs
  induction rs with
  | nil => intro r h; simp at h
  | cons a t ih =>
    intro r h
    cases hc : (a.patron_id == pid && a.book_id == bid && a.return_date == none)
    · have h2 : t.find?
          (fun x => x.patron_id == pid && x.book_id == bid && x.return_date == none)
          = some r := by
        rw [List.find?_cons_of_neg] at h
        · exact h
        · simp [hc]
      have hstep : closeFirstOpen (a :: t) pid bid ret = a :: closeFirstOpen t pid bid ret := by
        simp [closeFirstOpen, hc]
      rw [hstep, List.filter_cons, List.filter_cons]
      cases hp2 : (a.patron_id == pid && a.return_date == none)
      · simpa using ih r h2
      · simpa using ih r h2
    · have hstep : closeFirstOpen (a :: t) pid bid ret
          = { a with return_date := some ret } :: t := by
        simp only [closeFirstOpen, hc, if_true]
      have hac : (a.patron_id == pid) = true ∧ (a.return_date == none) = true := by
        simp only [Bool.and_eq_true] at hc
        exact ⟨hc.1.1, hc.2⟩
      rw [hstep, List.filter_cons, List.filter_cons]
      have hclosed : (({ a with return_date := some ret } : BorrowRecord).patron_id == pid
          && ({ a with return_date := some ret } : BorrowRecord).return_date == none) = false := by
        simp
      have hopen : (a.patron_id == pid && a.return_date == none) = true := by
        simp [hac.1, hac.2]
      simp [hclosed, hopen]

/-- C9: the borrow operation attempts the availability decrement only after
the record insert succeeded; an insert failure returns a failure result with
the state wholly unchanged, and a decrement failure after a successful
insert returns a failure result with the new open record still in storage
(no rollback) and the counters untouched. -/
theorem borrow_write_failure_effects (db : DB) (now : DateTime) (u : Bool)
    (pid : String) (bid : Nat) (book : Book)
    (hp : validPid pid = true)
    (hb : get_book_by_id db bid = some book)
    (ha : 0 < book.available_copies)
    (hc : get_patron_borrow_count db pid < 5) :
    borrow_book_by_patron db now false u pid bid
      = ((false, "Database error occurred while creating borrow record."), db)
    ∧ borrow_book_by_patron db now true false pid bid
      = ((false, "Database error occurred while updating book availability."),
          insert_borrow_record db pid bid now (addDays now 14))
    ∧ (insert_borrow_record db pid bid now (addDays now 14)).books = db.books := by
  have hav : ¬(book.available_copies ≤ 0) := by omega
  have hc2 : ¬(5 ≤ get_patron_borrow_count db pid) := by omega
  refine ⟨?_, ?_, rfl⟩
  · simp [borrow_book_by_patron, hp, hb, hav, hc2]
  · simp [borrow_book_by_patron, hp, hb, hav, hc2]

/-- Witness for C9 on a concrete available book and patron below the limit. -/
theorem borrow_write_failure_effects_witness :
    borrow_book_by_patron ⟨[⟨1, "T", "A", "1234567890123", 3, 2⟩], []⟩ ⟨20000, 0⟩ false true
        "123456" 1
      = ((false, "Database error occurred while creating borrow record."),
          ⟨[⟨1, "T", "A", "1234567890123", 3, 2⟩], []⟩) :=
  (borrow_write_failure_effects ⟨[⟨1, "T", "A", "1234567890123", 3, 2⟩], []⟩ ⟨20000, 0⟩ true
    "123456" 1 ⟨1, "T", "A", "1234567890123", 3, 2⟩
    (by decide) (by decide) (by decide) (by decide)).1

/-- C10: when the availability increment fails after the open record has
been closed, the return operation reports failure while the record keeps its
return date (no rollback): the books are untouched, the patron's open-loan
count has dropped by one, and the state genuinely differs from the
pre-state. -/
theorem return_increment_failure_keeps_loan_closed (db : DB) (now : DateTime)
    (pid : String) (bid : Nat) (book : Book) (r : BorrowRecord)
    (hp : validPid pid = true)
    (hb : get_book_by_id db bid = some book)
    (hr : findActiveRecord db pid bid = some r)
    (hg : book.available_copies < book.total_copies) :
    return_book_by_patron db now true false pid bid
      = ((false, "Could not update book availability."),
          update_borrow_record_return_date db pid bid now)
    ∧ (update_borrow_record_return_date db pid bid now).books = db.books
    ∧ get_patron_borrow_count (update_borrow_record_return_date db pid bid now) pid + 1
        = get_patron_borrow_count db pid
    ∧ update_borrow_record_return_date db pid bid now ≠ db := by
  have hg2 : ¬(book.total_copies ≤ book.available_copies) := by omega
  have hcount : get_patron_borrow_count (update_borrow_record_return_date db pid bid now) pid
      + 1 = get_patron_borrow_count db pid :=
    closeFirstOpen_open_count pid bid now db.records r hr
  refine ⟨?_, rfl, hcount, ?_⟩
  · simp [return_book_by_patron, hp, hb, hr, hg2]
  · intro heq
    have h2 : get_patron_borrow_count (update_borrow_record_return_date db pid bid now) pid
        = get_patron_borrow_count db pid := by rw [heq]
    omega

/-- Witness for C10 on a concrete open loan with a free slot. -/
theorem return_increment_failure_keeps_loan_closed_witness :
    return_book_by_patron
        ⟨[⟨1, "T", "A", "1234567890123", 2, 1⟩], [⟨"123456", 1, ⟨0, 0⟩, ⟨14, 0⟩, none⟩]⟩
        ⟨20, 0⟩ true false "123456" 1
      = ((false, "Could not update book availability."),
          update_borrow_record_return_date
            ⟨[⟨1, "T", "A", "1234567890123", 2, 1⟩], [⟨"123456", 1, ⟨0, 0⟩, ⟨14, 0⟩, none⟩]⟩
            "123456" 1 ⟨20, 0⟩) :=
  (return_increment_failure_keeps_loan_closed
    ⟨[⟨1, "T", "A", "1234567890123", 2, 1⟩], [⟨"123456", 1, ⟨0, 0⟩, ⟨14, 0⟩, none⟩]⟩
    ⟨20, 0⟩ "123456" 1 ⟨1, "T", "A", "1234567890123", 2, 1⟩
    ⟨"123456", 1, ⟨0, 0⟩, ⟨14, 0⟩, none⟩
    (by decide) (by decide) (by decide) (by decide)).1

/-- C4 counterexample: on a book whose available_copies equals total_copies
with no open loan, the return operation reports the no-active-loan failure,
not the copies-exceed (invariant-violation) failure the claim predicts. -/
theorem return_full_copies_counterexample :
    (return_book_by_patron ⟨[⟨1, "T", "A", "1234567890123", 1, 1⟩], []⟩ ⟨20000, 0⟩ true true
        "123456" 1).1.2
      = "No active borrow record for this patron and book."
    ∧ (return_book_by_patron ⟨[⟨1, "T", "A", "1234567890123", 1, 1⟩], []⟩ ⟨20000, 0⟩ true true
        "123456" 1).1.2
      ≠ "Available copies cannot exceed total copies." := by
  exact ⟨by decide, by decide⟩

/-- C4 (amended): with a valid patron and an existing book, the return
operation fails with the no-active-loan result whenever no open record
exists for the pair (regardless of the counters), and fails with the
copies-exceed invariant-violation result whenever an open record exists and
available_copies ≥ total_copies; in both cases the state is unchanged
(the checks run before any mutation). -/
theorem return_precondition_failures (db : DB) (now : DateTime) (o1 o2 : Bool)
    (pid : String) (bid : Nat) (book : Book)
    (hp : validPid pid = true)
    (hb : get_book_by_id db bid = some book) :
    (findActiveRecord db pid bid = none →
      return_book_by_patron db now o1 o2 pid bid
        = ((false, "No active borrow record for this patron and book."), db))
    ∧ (∀ r, findActiveRecord db pid bid = some r →
        book.total_copies ≤ book.available_copies →
        return_book_by_patron db now o1 o2 pid bid
          = ((false, "Available copies cannot exceed total copies."), db)) := by
  constructor
  · intro hr
    simp [return_book_by_patron, hp, hb, hr]
  · intro r hr hg
    simp [return_book_by_patron, hp, hb, hr, hg]

/-- Witness for C4 (amended): a full-copies book with an (inconsistent)
open loan yields the copies-exceed failure, state unchanged. -/
theorem return_precondition_failures_witness :
    return_book_by_patron
        ⟨[⟨1, "T", "A", "1234567890123", 1, 1⟩], [⟨"123456", 1, ⟨0, 0⟩, ⟨14, 0⟩, none⟩]⟩
        ⟨20, 0⟩ true true "123456" 1
      = ((false, "Available copies cannot exceed total copies."),
          ⟨[⟨1, "T", "A", "1234567890123", 1, 1⟩], [⟨"123456", 1, ⟨0, 0⟩, ⟨14, 0⟩, none⟩]⟩) :=
  (return_precondition_failures
    ⟨[⟨1, "T", "A", "1234567890123", 1, 1⟩], [⟨"123456", 1, ⟨0, 0⟩, ⟨14, 0⟩, none⟩]⟩
    ⟨20, 0⟩ true true "123456" 1 ⟨1, "T", "A", "1234567890123", 1, 1⟩
    (by decide) (by decide)).2
    ⟨"123456", 1, ⟨0, 0⟩, ⟨14, 0⟩, none⟩ (by decide) (by decide)

/-- C5 counterexample: the isbn search matches books against the trimmed
term (a book is returned whose ISBN differs from the untrimmed term), and a
type value other than the literal "isbn" (here " ISBN ") still performs an
isbn search instead of yielding the empty sequence. -/
theorem search_untrimmed_isbn_counterexample :
    search_books_in_catalog ⟨[⟨1, "The Hobbit", "Tolkien", "1234567890123", 3, 2⟩], []⟩
        " 1234567890123" "isbn"
      = [catalogRowOf ⟨1, "The Hobbit", "Tolkien", "1234567890123", 3, 2⟩]
    ∧ (⟨1, "The Hobbit", "Tolkien", "1234567890123", 3, 2⟩ : Book).isbn ≠ " 1234567890123"
    ∧ search_books_in_catalog ⟨[⟨1, "The Hobbit", "Tolkien", "1234567890123", 3, 2⟩], []⟩
        "1234567890123" " ISBN " ≠ [] := by
  exact ⟨by decide, by decide, by decide⟩

/-- C5 (amended): the search type is trimmed and lowercased before the
dispatch; an "isbn" search returns exactly the books whose ISBN is
string-equal to the trimmed (but unlowered) term, "title"/"author" searches
return exactly the books whose field contains the trimmed term
case-insensitively, and every other normalized type yields the empty
sequence. -/
theorem search_semantics (db : DB) (search_term search_type : String) :
    (strLower (strTrim search_type) = "isbn" →
      search_books_in_catalog db search_term search_type
        = (db.books.filter (fun b => b.isbn == strTrim search_term)).map catalogRowOf)
    ∧ (strLower (strTrim search_type) = "title" →
      search_books_in_catalog db search_term search_type
        = (db.books.filter (fun b =>
            strContains (strLower b.title) (strLower (strTrim search_term)))).map catalogRowOf)
    ∧ (strLower (strTrim search_type) = "author" →
      search_books_in_catalog db search_term search_type
        = (db.books.filter (fun b =>
            strContains (strLower b.author) (strLower (strTrim search_term)))).map catalogRowOf)
    ∧ (strLower (strTrim search_type) ∉ (["isbn", "title", "author"] : List String) →
      search_books_in_catalog db search_term search_type = []) := by
  refine ⟨fun h => ?_, fun h => ?_, fun h => ?_, fun h => ?_⟩
  · simp [search_books_in_catalog, get_all_books, h]
  · simp [search_books_in_catalog, get_all_books, h]
  · simp [search_books_in_catalog, get_all_books, h]
  · simp only [List.mem_cons, List.mem_singleton, not_or] at h
    obtain ⟨h1, h2, h3⟩ := h
    simp [search_books_in_catalog, get_all_books, h1, h2, h3]

/-- Witness for C5 (amended) on a concrete catalog and isbn search. -/
theorem search_semantics_witness :
    search_books_in_catalog ⟨[⟨1, "The Hobbit", "Tolkien", "1234567890123", 3, 2⟩], []⟩
        " 1234567890123" "isbn"
      = ((⟨[⟨1, "The Hobbit", "Tolkien", "1234567890123", 3, 2⟩], []⟩ : DB).books.filter
          (fun b => b.isbn == strTrim " 1234567890123")).map catalogRowOf :=
  (search_semantics ⟨[⟨1, "The Hobbit", "Tolkien", "1234567890123", 3, 2⟩], []⟩
    " 1234567890123" "isbn").1 (by decide)

/-- C6 counterexample: a fault raised by the storage collaborator during the
record insert propagates out of the borrow operation instead of being
converted into a failure result. -/
theorem storage_fault_propagates_counterexample :
    borrow_book_by_patron_exc ⟨[⟨1, "T", "A", "1234567890123", 3, 2⟩], []⟩ ⟨20000, 0⟩
        WOutcome.fault WOutcome.ok "123456" 1
      = Except.error "unhandled storage exception" := rfl

lemma borrow_exc_isOk (db : DB) (now : DateTime) (o1 o2 : WOutcome)
    (pid : String) (bid : Nat)
    (h1 : o1 ≠ WOutcome.fault) (h2 : o2 ≠ WOutcome.fault) :
    isOkResult (borrow_book_by_patron_exc db now o1 o2 pid bid) = true := by
  cases hv : validPid pid
  · simp [borrow_book_by_patron_exc, hv, isOkResult]
  · cases hb : get_book_by_id db bid
    · simp [borrow_book_by_patron_exc, hv, hb, isOkResult]
    · rename_i book
      by_cases hav : book.available_copies ≤ 0
      · simp [borrow_book_by_patron_exc, hv, hb, hav, isOkResult]
      · by_cases hc : 5 ≤ get_patron_borrow_count db pid
        · simp [borrow_book_by_patron_exc, hv, hb, hav, hc, isOkResult]
        · cases o1 with
          | fault => exact absurd rfl h1
          | err => simp [borrow_book_by_patron_exc, hv, hb, hav, hc, isOkResult]
          | ok =>
            cases o2 with
            | fault => exact absurd rfl h2
            | err => simp [borrow_book_by_patron_exc, hv, hb, hav, hc, isOkResult]
            | ok => simp [borrow_book_by_patron_exc, hv, hb, hav, hc, isOkResult]

lemma return_exc_isOk (db : DB) (now : DateTime) (o1 o2 : WOutcome)
    (pid : String) (bid : Nat)
    (h1 : o1 ≠ WOutcome.fault) (h2 : o2 ≠ WOutcome.fault) :
    isOkResult (return_book_by_patron_exc db now o1 o2 pid bid) = true := by
  cases hv : validPid pid
  · simp [return_book_by_patron_exc, hv, isOkResult]
  · cases hb : get_book_by_id db bid
    · simp [return_book_by_patron_exc, hv, hb, isOkResult]
    · rename_i book
      cases hr : findActiveRecord db pid bid
      · simp [return_book_by_patron_exc, hv, hb, hr, isOkResult]
      · by_cases hg : book.total_copies ≤ book.available_copies
        · simp [return_book_by_patron_exc, hv, hb, hr, hg, isOkResult]
        · cases o1 with
          | fault => exact absurd rfl h1
          | err => simp [return_book_by_patron_exc, hv, hb, hr, hg, isOkResult]
          | ok =>
            cases o2 with
            | fault => exact absurd rfl h2
            | err => simp [return_book_by_patron_exc, hv, hb, hr, hg, isOkResult]
            | ok => simp [return_book_by_patron_exc, hv, hb, hr, hg, isOkResult]

/-- C6 (amended): as long as the storage collaborator signals failure by a
return value (no raised fault), every borrow/return run yields a structured
result — every failure path, including storage write failures, is a normal
return value; a raised fault, however, is not caught by the core. -/
theorem ops_return_results_without_faults (db : DB) (now : DateTime)
    (o1 o2 : WOutcome) (pid : String) (bid : Nat)
    (h1 : o1 ≠ WOutcome.fault) (h2 : o2 ≠ WOutcome.fault) :
    isOkResult (borrow_book_by_patron_exc db now o1 o2 pid bid) = true
    ∧ isOkResult (return_book_by_patron_exc db now o1 o2 pid bid) = true :=
  ⟨borrow_exc_isOk db now o1 o2 pid bid h1 h2, return_exc_isOk db now o1 o2 pid bid h1 h2⟩

/-- Witness for C6 (amended): a returned-failure insert outcome still gives
a structured result. -/
theorem ops_return_results_without_faults_witness :
    isOkResult (borrow_book_by_patron_exc ⟨[⟨1, "T", "A", "1234567890123", 3, 2⟩], []⟩
        ⟨20000, 0⟩ WOutcome.err WOutcome.ok "123456" 1) = true :=
  (ops_return_results_without_faults ⟨[⟨1, "T", "A", "1234567890123", 3, 2⟩], []⟩ ⟨20000, 0⟩
    WOutcome.err WOutcome.ok "123456" 1 (by decide) (by decide)).1

/-- C8: with no stored record for the pair the assessment is the zero
default (no history, no debt); otherwise the record the assessment is
computed from is a stored record of the pair whose borrow date no record of
the pair exceeds. -/
theorem fee_default_and_latest_record (db : DB) (now : DateTime) (pid : String) (bid : Nat) :
    (db.records.filter (fun x => x.patron_id == pid && x.book_id == bid) = [] →
      calculate_late_fee_for_book db now pid bid = ⟨0, 0⟩)
    ∧ (∀ r, latestRecord db pid bid = some r →
        r ∈ db.records ∧ r.patron_id = pid ∧ r.book_id = bid
        ∧ (∀ x ∈ db.records, x.patron_id = pid → x.book_id = bid →
            dtLt r.borrow_date x.borrow_date = false)
        ∧ calculate_late_fee_for_book db now pid bid
            = ⟨feeSpecCents ((max 0 ((r.return_date.getD now).day - r.due_date.day)).toNat),
                (max 0 ((r.return_date.getD now).day - r.due_date.day)).toNat⟩) := by
  constructor
  · intro h
    unfold calculate_late_fee_for_book latestRecord
    rw [h]
    rfl
  · intro r hr
    have hr' : (db.records.filter
        (fun x => x.patron_id == pid && x.book_id == bid)).foldl pickLatest none = some r := hr
    have hmem0 := foldl_pickLatest_mem _ _ _ hr'
    have hmemf : r ∈ db.records.filter (fun x => x.patron_id == pid && x.book_id == bid) := by
      rcases hmem0 with h0 | h0
      · exact (nomatch h0)
      · exact h0
    have hmem := (List.mem_filter.mp hmemf).1
    have hprop := (List.mem_filter.mp hmemf).2
    simp only [Bool.and_eq_true, beq_iff_eq] at hprop
    have hmax := (foldl_pickLatest_max _ _ _ hr').2
    refine ⟨hmem, hprop.1, hprop.2, fun x hx hxp hxb => ?_, ?_⟩
    · exact hmax x (List.mem_filter.mpr ⟨hx, by simp [hxp, hxb]⟩)
    · unfold calculate_late_fee_for_book
      rw [hr]
      rfl

/-- Witness for C8: of two records for the pair, the later-borrowed,
already-returned one determines the assessment. -/
theorem fee_default_and_latest_record_witness :
    calculate_late_fee_for_book
        ⟨[], [⟨"123456", 1, ⟨0, 0⟩, ⟨14, 0⟩, some ⟨15, 0⟩⟩,
              ⟨"123456", 1, ⟨30, 0⟩, ⟨44, 0⟩, some ⟨54, 0⟩⟩]⟩ ⟨99, 0⟩ "123456" 1
      = ⟨650, 10⟩ := by
  have h := ((fee_default_and_latest_record
    ⟨[], [⟨"123456", 1, ⟨0, 0⟩, ⟨14, 0⟩, some ⟨15, 0⟩⟩,
          ⟨"123456", 1, ⟨30, 0⟩, ⟨44, 0⟩, some ⟨54, 0⟩⟩]⟩ ⟨99, 0⟩ "123456" 1).2
    ⟨"123456", 1, ⟨30, 0⟩, ⟨44, 0⟩, some ⟨54, 0⟩⟩ (by decide)).2.2.2.2
  rw [h]
  decide
